import Mathlib

/-!
Shallow embedding of `app_with_login.py`: a minimal Flask social-posting app
with three tables (User, Post, Notification), session-based authentication,
form-based and JSON-API post creation, notification fan-out, and a
mark-all-read operation.  Handlers are modelled as pure functions from the
request data, the store and the session to a response together with the
updated store (and, for login, the updated session).
-/

namespace App

/-- The `User` model (`app_with_login.py` lines 12-26): id, unique username,
unique email, password hash.  The `created_at` timestamp plays no role in any
property below and is omitted. -/
structure User where
  id : Nat
  username : String
  email : String
  password_hash : String
deriving Repr, DecidableEq

/-- The `Post` model (lines 29-34): id, title (declared `db.String(200)`),
content, foreign key to the authoring user. -/
structure Post where
  id : Nat
  title : String
  content : String
  user_id : Nat
deriving Repr, DecidableEq

/-- The `Notification` model (lines 37-47): id, recipient user, triggering post,
message (declared `db.String(500)`), read flag (default `False`). -/
structure Notification where
  id : Nat
  user_id : Nat
  post_id : Nat
  message : String
  is_read : Bool
deriving Repr, DecidableEq

/-- The persistence store: the three tables plus the auto-increment counters
for primary keys. -/
structure Store where
  users : List User
  posts : List Post
  notifications : List Notification
  nextUserId : Nat
  nextPostId : Nat
  nextNotifId : Nat
deriving Repr, DecidableEq

/-- The store right after `db.create_all()` (line 51): all tables empty. -/
def emptyStore : Store := ⟨[], [], [], 1, 1, 1⟩

/-- The session record established by a successful login: Flask's
`session['user_id']` and `session['username']`. -/
structure SessionData where
  user_id : Nat
  username : String
deriving Repr, DecidableEq

/-- Responses a handler can produce.  Browser routes render a template
(optionally with a flashed message) or redirect; API routes return JSON
with a status code. -/
inductive Resp where
  /-- the response `redirect(url_for('login'))` -/
  | redirectLogin
  /-- the response `redirect(url_for('dashboard'))` -/
  | redirectDashboard
  /-- the response `redirect(url_for('posts'))` -/
  | redirectPosts
  /-- the response `render_template('login.html')`, after flashing `msg` when present -/
  | renderLogin (msg : Option String)
  /-- the response `render_template('register.html')`, after flashing `msg` when present -/
  | renderRegister (msg : Option String)
  /-- the response `render_template('dashboard.html', ...)` -/
  | renderDashboard (user : User) (posts : List Post)
  /-- the response `render_template('posts.html', ...)` -/
  | renderPosts (posts : List Post)
  /-- the response `render_template('create_post.html')`, after flashing `msg` when present -/
  | renderCreatePost (msg : Option String)
  /-- the response `render_template('notifications.html', ...)` -/
  | renderNotifications (user : User) (notifications : List Notification)
  /-- the response of `jsonify` on an error object, with a status code -/
  | jsonError (code : Nat) (msg : String)
  /-- the 500 response carrying an error message plus exception details -/
  | jsonErrorWithDetails (code : Nat) (msg : String)
  /-- the 200 response of `jsonify` on a message object -/
  | jsonMessage (msg : String)
  /-- the 201 response of the JSON-API post creation, echoing the new post -/
  | jsonCreated (post : Post) (author : String)
  /-- the JSON user-list response -/
  | jsonUsers (users : List User)
  /-- the JSON post-list response -/
  | jsonPosts (posts : List Post)
  /-- the JSON notification-list response -/
  | jsonNotifications (notifications : List Notification)
  /-- the 400 Bad Request Flask produces when `request.form[key]` raises
  `KeyError` for an absent field (werkzeug `BadRequestKeyError`) -/
  | badRequestKeyError (key : String)
deriving Repr, DecidableEq

/-- Modelled external credential-hashing primitive: werkzeug's
`generate_password_hash`, treated by the spec as an external one-way hash
(§2).  Modelled as a tagged copy of the password, which keeps the
hash/verify contract `check_password_hash (generate_password_hash p) p`. -/
def generate_password_hash (p : String) : String := "hash$" ++ p

/-- Modelled external credential-hashing primitive: werkzeug's
`check_password_hash`. -/
def check_password_hash (h p : String) : Bool := h == generate_password_hash p

/-- the query `User.query.filter_by(username=...).first()` -/
def findUserByName (st : Store) (username : String) : Option User :=
  st.users.find? (fun u => u.username == username)

/-- the query `User.query.filter_by(email=...).first()` -/
def findUserByEmail (st : Store) (email : String) : Option User :=
  st.users.find? (fun u => u.email == email)

/-- the query `User.query.get(uid)` -/
def getUserById (st : Store) (uid : Nat) : Option User :=
  st.users.find? (fun u => u.id == uid)

/-- Modelled from the spec: the database backend configuration
(`config.Config`, loaded at line 8) is not under `src/`; per §3 the store
enforces the declared column bounds, so an insert of a `Post` whose title
exceeds the declared 200 characters fails at commit (and is rolled back by
the handlers' `except` branches). -/
def postFitsSchema (p : Post) : Bool := p.title.length ≤ 200

/-- Modelled from the spec: as for `postFitsSchema`, a `Notification` row
commits only if its message fits the declared 500-character column (§3). -/
def notifFitsSchema (n : Notification) : Bool := n.message.length ≤ 500

/-- A form submission: the field/value pairs of `request.form`.
`request.form[k]` raises for an absent key, modelled by `List.lookup`
returning `none`. -/
abbrev Form := List (String × String)

/-- The `login` handler, POST branch (lines 59-75).  Returns the response, the
(unchanged) store and the resulting session.  Accessing a missing form field
aborts with a 400 before anything else happens. -/
def login (form : Form) (st : Store) (sess : Option SessionData) :
    Resp × Store × Option SessionData :=
  match form.lookup "username" with
  | none => (.badRequestKeyError "username", st, sess)
  | some username =>
    match form.lookup "password" with
    | none => (.badRequestKeyError "password", st, sess)
    | some password =>
      match findUserByName st username with
      | some user =>
        if check_password_hash user.password_hash password then
          (.redirectDashboard, st, some ⟨user.id, user.username⟩)
        else
          (.renderLogin (some "Invalid username or password"), st, sess)
      | none =>
        (.renderLogin (some "Invalid username or password"), st, sess)

/-- The `register` handler, POST branch (lines 77-112): password/confirmation
match, then username uniqueness, then email uniqueness, then insert the new
user with a hashed password. -/
def register (form : Form) (st : Store) : Resp × Store :=
  match form.lookup "username" with
  | none => (.badRequestKeyError "username", st)
  | some username =>
  match form.lookup "email" with
  | none => (.badRequestKeyError "email", st)
  | some email =>
  match form.lookup "password" with
  | none => (.badRequestKeyError "password", st)
  | some password =>
  match form.lookup "confirm_password" with
  | none => (.badRequestKeyError "confirm_password", st)
  | some confirm_password =>
  if password ≠ confirm_password then
    (.renderRegister (some "Passwords do not match"), st)
  else if (findUserByName st username).isSome then
    (.renderRegister (some "Username already exists"), st)
  else if (findUserByEmail st email).isSome then
    (.renderRegister (some "Email already exists"), st)
  else
    let user : User :=
      ⟨st.nextUserId, username, email, generate_password_hash password⟩
    (.redirectLogin,
     { st with users := st.users ++ [user], nextUserId := st.nextUserId + 1 })

/-- The `create_post` handler, POST branch (lines 133-158): session-gated; both
fields must be non-empty; the post is owned by the session's user id; a
commit failure (title over the declared bound) is rolled back. -/
def create_post (form : Form) (st : Store) (sess : Option SessionData) :
    Resp × Store :=
  match sess with
  | none => (.redirectLogin, st)
  | some s =>
    match form.lookup "title" with
    | none => (.badRequestKeyError "title", st)
    | some title =>
    match form.lookup "content" with
    | none => (.badRequestKeyError "content", st)
    | some content =>
    if title = "" ∨ content = "" then
      (.renderCreatePost (some "Title and content are required"), st)
    else
      let post : Post := ⟨st.nextPostId, title, content, s.user_id⟩
      if postFitsSchema post then
        (.redirectPosts,
         { st with posts := st.posts ++ [post], nextPostId := st.nextPostId + 1 })
      else
        (.renderCreatePost (some "Failed to create post. Please try again."), st)

/-- The notification rows built by the fan-out loop (lines 366-374): one per
user in `others`, with consecutive auto-increment ids starting at `nid`,
message `"New post by {author}: {title}"` and the default `is_read = False`. -/
def buildNotifs (nid : Nat) (postId : Nat) (author : String) (title : String) :
    List User → List Notification
  | [] => []
  | u :: rest =>
    ⟨nid, u.id, postId, "New post by " ++ author ++ ": " ++ title, false⟩ ::
      buildNotifs (nid + 1) postId author title rest

/-- A JSON request body, modelled as the field/value pairs of the posted
object; `data.get(k)` is `List.lookup`, and Python's truthiness check
`not data` holds exactly for the empty object. -/
abbrev JsonBody := List (String × String)

/-- Python's `not x` test on an optional string field: true when the field
is absent or the empty string. -/
def truthy : Option String → Bool
  | none => false
  | some s => s ≠ ""

/-- The `api_posts_21201532` handler, POST branch (lines 340-391): validate the
payload, look up the author by username, insert the post and commit, then
build and commit one notification per other user.  The two commits are
separate: a failure in the notification batch leaves the post durable. -/
def api_posts_post (data : JsonBody) (st : Store) : Resp × Store :=
  if data.isEmpty then
    (.jsonError 400 "No data provided", st)
  else
    let title := data.lookup "title"
    let content := data.lookup "content"
    let username := data.lookup "username"
    if ¬ (truthy title ∧ truthy content ∧ truthy username) then
      (.jsonError 400 "Title, content, and username are required", st)
    else
      match findUserByName st (username.getD "") with
      | none => (.jsonError 404 "User not found", st)
      | some user =>
        let post : Post := ⟨st.nextPostId, title.getD "", content.getD "", user.id⟩
        if postFitsSchema post then
          let st1 : Store :=
            { st with posts := st.posts ++ [post], nextPostId := st.nextPostId + 1 }
          let others := st1.users.filter (fun ou => ou.id ≠ user.id)
          let notifs := buildNotifs st1.nextNotifId post.id user.username (title.getD "") others
          if notifs.all notifFitsSchema then
            (.jsonCreated post user.username,
             { st1 with
                notifications := st1.notifications ++ notifs,
                nextNotifId := st1.nextNotifId + notifs.length })
          else
            (.jsonErrorWithDetails 500 "Failed to create post", st1)
        else
          (.jsonErrorWithDetails 500 "Failed to create post", st)

/-- The in-place update performed by the mark-all-read loop (lines 260-263)
on one notification row: unread rows of the given user become read, every
other row is untouched. -/
def markNotifRead (uid : Nat) (n : Notification) : Notification :=
  if n.user_id = uid ∧ n.is_read = false then { n with is_read := true } else n

/-- The `api_mark_notifications_read` handler (lines 253-267): look up the user
by username, flip every unread notification of that user to read, commit
once, and report success. -/
def api_mark_notifications_read (username : String) (st : Store) : Resp × Store :=
  match findUserByName st username with
  | none => (.jsonError 404 "User not found", st)
  | some user =>
    (.jsonMessage "Notifications marked as read",
     { st with notifications := st.notifications.map (markNotifRead user.id) })

/-- The `api_mark_notifications_read_21201532` handler (lines 269-283): the
duplicate mark-all-read route, byte-for-byte the same body. -/
def api_mark_notifications_read_21201532 (username : String) (st : Store) :
    Resp × Store :=
  match findUserByName st username with
  | none => (.jsonError 404 "User not found", st)
  | some user =>
    (.jsonMessage "Notifications marked as read",
     { st with notifications := st.notifications.map (markNotifRead user.id) })

/-- The `dashboard` handler (lines 114-122): session-gated; shows the session
user's five most recent posts. -/
def dashboard (st : Store) (sess : Option SessionData) : Resp × Store :=
  match sess with
  | none => (.redirectLogin, st)
  | some s =>
    match getUserById st s.user_id with
    | none => (.jsonError 500 "Internal Server Error", st)
    | some user =>
      (.renderDashboard user
        ((st.posts.filter (fun p => p.user_id = user.id)).reverse.take 5), st)

/-- The `posts` handler (lines 124-131): session-gated listing of all posts,
newest first. -/
def posts (st : Store) (sess : Option SessionData) : Resp × Store :=
  match sess with
  | none => (.redirectLogin, st)
  | some _ => (.renderPosts st.posts.reverse, st)

/-- The `notifications` handler (lines 160-168): session-gated listing of the
session user's notifications, newest first. -/
def notifications (st : Store) (sess : Option SessionData) : Resp × Store :=
  match sess with
  | none => (.redirectLogin, st)
  | some s =>
    match getUserById st s.user_id with
    | none => (.jsonError 500 "Internal Server Error", st)
    | some user =>
      (.renderNotifications user
        ((st.notifications.filter (fun n => n.user_id = user.id)).reverse), st)

/-- The `api_users` handler (lines 176-192): 401 without a session, else the
full user list. -/
def api_users (st : Store) (sess : Option SessionData) : Resp × Store :=
  match sess with
  | none => (.jsonError 401 "Unauthorized", st)
  | some _ => (.jsonUsers st.users, st)

/-- The `api_posts` handler (lines 285-302): 401 without a session, else all
posts, newest first. -/
def api_posts (st : Store) (sess : Option SessionData) : Resp × Store :=
  match sess with
  | none => (.jsonError 401 "Unauthorized", st)
  | some _ => (.jsonPosts st.posts.reverse, st)

/-- Whether a response is the 400 produced by a `request.form[key]` access
on an absent key. -/
def Resp.isBadRequest : Resp → Bool
  | .badRequestKeyError _ => true
  | _ => false

/-- One store-mutating handler invocation, viewed as a transition on the
store.  Listing and logout routes never touch the store and are omitted;
`login` is included even though every one of its branches leaves the store
unchanged. -/
inductive Step : Store → Store → Prop
  | ofLogin (form : Form) (sess : Option SessionData) (st : Store) :
      Step st (login form st sess).2.1
  | ofRegister (form : Form) (st : Store) :
      Step st (register form st).2
  | ofCreatePost (form : Form) (sess : Option SessionData) (st : Store) :
      Step st (create_post form st sess).2
  | ofApiPost (data : JsonBody) (st : Store) :
      Step st (api_posts_post data st).2
  | ofMarkRead (username : String) (st : Store) :
      Step st (api_mark_notifications_read username st).2
  | ofMarkRead21201532 (username : String) (st : Store) :
      Step st (api_mark_notifications_read_21201532 username st).2

/-- Stores reachable from the freshly created database by handler
invocations. -/
inductive Reachable : Store → Prop
  | empty : Reachable emptyStore
  | step {st st' : Store} : Reachable st → Step st st' → Reachable st'

/-! ### Helper lemmas -/

theorem markNotifRead_idem (uid : Nat) (n : Notification) :
    markNotifRead uid (markNotifRead uid n) = markNotifRead uid n := by
  by_cases hc : n.user_id = uid ∧ n.is_read = false
  · simp [markNotifRead, hc]
  · simp [markNotifRead, hc]

theorem markNotifRead_frame (uid : Nat) (n : Notification) (h : n.user_id ≠ uid) :
    markNotifRead uid n = n := by
  simp [markNotifRead, h]

theorem markNotifRead_fields (uid : Nat) (n : Notification) :
    (markNotifRead uid n).id = n.id ∧ (markNotifRead uid n).user_id = n.user_id ∧
      (markNotifRead uid n).post_id = n.post_id ∧
      (markNotifRead uid n).message = n.message := by
  by_cases hc : n.user_id = uid ∧ n.is_read = false <;> simp [markNotifRead, hc]

theorem markNotifRead_read (uid : Nat) (n : Notification)
    (h : (markNotifRead uid n).user_id = uid) :
    (markNotifRead uid n).is_read = true := by
  by_cases hc : n.user_id = uid ∧ n.is_read = false
  · simp [markNotifRead, hc]
  · simp only [markNotifRead, if_neg hc] at h ⊢
    rcases Bool.eq_false_or_eq_true n.is_read with ht | hf
    · exact ht
    · exact absurd ⟨h, hf⟩ hc

theorem map_markNotifRead_idem (uid : Nat) :
    ∀ l : List Notification,
      (l.map (markNotifRead uid)).map (markNotifRead uid) = l.map (markNotifRead uid)
  | [] => rfl
  | n :: rest => by
    simp only [List.map_cons, markNotifRead_idem uid n, map_markNotifRead_idem uid rest]

theorem forall₂_map_self {α : Type} (R : α → α → Prop) (f : α → α) :
    ∀ l : List α, (∀ a ∈ l, R a (f a)) → List.Forall₂ R l (l.map f)
  | [], _ => List.Forall₂.nil
  | a :: rest, h =>
    List.Forall₂.cons (h a (List.mem_cons_self a rest))
      (forall₂_map_self R f rest (fun b hb => h b (List.mem_cons_of_mem a hb)))

theorem buildNotifs_length (pid : Nat) (a t : String) :
    ∀ (us : List User) (nid : Nat), (buildNotifs nid pid a t us).length = us.length
  | [], _ => rfl
  | u :: rest, nid => by
    simp [buildNotifs, buildNotifs_length pid a t rest (nid + 1)]

theorem buildNotifs_mem (pid : Nat) (a t : String) :
    ∀ (us : List User) (nid : Nat) (n : Notification), n ∈ buildNotifs nid pid a t us →
      n.is_read = false ∧ n.post_id = pid ∧
        n.message = "New post by " ++ a ++ ": " ++ t
  | [], _, _, h => absurd h (List.not_mem_nil _)
  | u :: rest, nid, n, h => by
    rcases List.mem_cons.mp h with rfl | h'
    · exact ⟨rfl, rfl, rfl⟩
    · exact buildNotifs_mem pid a t rest (nid + 1) n h'

theorem buildNotifs_map_user_id (pid : Nat) (a t : String) :
    ∀ (us : List User) (nid : Nat),
      (buildNotifs nid pid a t us).map Notification.user_id = us.map User.id
  | [], _ => rfl
  | u :: rest, nid => by
    simp [buildNotifs, buildNotifs_map_user_id pid a t rest (nid + 1)]

theorem mark_read_eq (username : String) (st : Store) (user : User)
    (h : findUserByName st username = some user) :
    api_mark_notifications_read username st =
      (.jsonMessage "Notifications marked as read",
        { st with notifications := st.notifications.map (markNotifRead user.id) }) := by
  unfold api_mark_notifications_read
  rw [h]

theorem find?_username_eq {l : List User} {u : User} {un : String}
    (huniq : l.Pairwise (fun a b => a.username ≠ b.username))
    (hmem : u ∈ l) (hname : u.username = un) :
    l.find? (fun x => x.username == un) = some u := by
  induction l with
  | nil => cases hmem
  | cons a rest ih =>
    rcases List.mem_cons.mp hmem with rfl | hmem'
    · simp [List.find?, hname]
    · have hbeq : (a.username == un) = false := by
        simp only [beq_eq_false_iff_ne, ne_eq]
        intro hEq
        exact (List.pairwise_cons.mp huniq).1 u hmem' (hEq.trans hname.symm)
      simp only [List.find?, hbeq]
      exact ih (List.pairwise_cons.mp huniq).2 hmem'

theorem login_store_frame (form : Form) (st : Store) (sess : Option SessionData) :
    (login form st sess).2.1 = st := by
  unfold login
  repeat' split
  all_goals rfl

theorem register_posts_frame (form : Form) (st : Store) :
    (register form st).2.posts = st.posts := by
  unfold register
  repeat' split
  all_goals rfl

theorem mark_read_posts_frame (username : String) (st : Store) :
    (api_mark_notifications_read username st).2.posts = st.posts := by
  unfold api_mark_notifications_read
  repeat' split
  all_goals rfl

theorem mark_read_21201532_posts_frame (username : String) (st : Store) :
    (api_mark_notifications_read_21201532 username st).2.posts = st.posts := by
  unfold api_mark_notifications_read_21201532
  repeat' split
  all_goals rfl

theorem create_post_posts_cases (form : Form) (st : Store) (sess : Option SessionData) :
    (create_post form st sess).2.posts = st.posts ∨
      ∃ p : Post, postFitsSchema p = true ∧
        (create_post form st sess).2.posts = st.posts ++ [p] := by
  simp only [create_post]
  split
  · exact Or.inl rfl
  · split
    · exact Or.inl rfl
    · split
      · exact Or.inl rfl
      · split
        · exact Or.inl rfl
        · split
          · rename_i h
            exact Or.inr ⟨_, h, rfl⟩
          · exact Or.inl rfl

theorem api_post_posts_cases (data : JsonBody) (st : Store) :
    (api_posts_post data st).2.posts = st.posts ∨
      ∃ p : Post, postFitsSchema p = true ∧
        (api_posts_post data st).2.posts = st.posts ++ [p] := by
  simp only [api_posts_post]
  split
  · exact Or.inl rfl
  · split
    · exact Or.inl rfl
    · split
      · exact Or.inl rfl
      · split
        · split
          · rename_i h _
            exact Or.inr ⟨_, h, rfl⟩
          · rename_i h _
            exact Or.inr ⟨_, h, rfl⟩
        · exact Or.inl rfl

theorem register_eq (st : Store) (un em pw cpw : String) :
    register [("username", un), ("email", em), ("password", pw),
        ("confirm_password", cpw)] st =
      if pw ≠ cpw then (.renderRegister (some "Passwords do not match"), st)
      else if (findUserByName st un).isSome then
        (.renderRegister (some "Username already exists"), st)
      else if (findUserByEmail st em).isSome then
        (.renderRegister (some "Email already exists"), st)
      else
        (.redirectLogin,
          { st with
              users := st.users ++ [⟨st.nextUserId, un, em, generate_password_hash pw⟩],
              nextUserId := st.nextUserId + 1 }) := rfl

theorem login_eq (st : Store) (sess : Option SessionData) (un pw : String) :
    login [("username", un), ("password", pw)] st sess =
      match findUserByName st un with
      | some user =>
        if check_password_hash user.password_hash pw then
          (.redirectDashboard, st, some ⟨user.id, user.username⟩)
        else (.renderLogin (some "Invalid username or password"), st, sess)
      | none => (.renderLogin (some "Invalid username or password"), st, sess) := rfl

/-! ### Claim theorems -/

/-- C5: for every request lacking a valid session, the browser routes
(`dashboard`, `posts`, `create_post`, `notifications`) respond with a
redirect to login, the session-gated API routes (`api_users`, `api_posts`)
respond with a 401 JSON error, and in every case the store is unchanged. -/
theorem guarded_routes_reject_without_session (st : Store) (form : Form) :
    dashboard st none = (.redirectLogin, st) ∧
    posts st none = (.redirectLogin, st) ∧
    create_post form st none = (.redirectLogin, st) ∧
    notifications st none = (.redirectLogin, st) ∧
    api_users st none = (.jsonError 401 "Unauthorized", st) ∧
    api_posts st none = (.jsonError 401 "Unauthorized", st) :=
  ⟨rfl, rfl, rfl, rfl, rfl, rfl⟩

/-- C10: a POST to login or register whose form data lacks a required field
aborts with the 400 bad-request raised by the unconditional `request.form`
indexing: no validation message is produced, the store and session are left
unchanged, and the response does not depend on the store contents. -/
theorem form_missing_field_aborts (st st2 : Store) (sess : Option SessionData)
    (form : Form) :
    ((form.lookup "username" = none ∨ form.lookup "password" = none) →
      (login form st sess).1.isBadRequest = true ∧
        (login form st sess).2.1 = st ∧ (login form st sess).2.2 = sess ∧
        (login form st sess).1 = (login form st2 sess).1) ∧
    ((form.lookup "username" = none ∨ form.lookup "email" = none ∨
        form.lookup "password" = none ∨ form.lookup "confirm_password" = none) →
      (register form st).1.isBadRequest = true ∧
        (register form st).2 = st ∧
        (register form st).1 = (register form st2).1) := by
  constructor
  · intro h
    unfold login
    cases hu : form.lookup "username" with
    | none => simp [Resp.isBadRequest]
    | some a =>
      cases hp : form.lookup "password" with
      | none => simp [Resp.isBadRequest]
      | some b => rcases h with h | h <;> simp_all
  · intro h
    unfold register
    cases hu : form.lookup "username" with
    | none => simp [Resp.isBadRequest]
    | some a =>
      cases he : form.lookup "email" with
      | none => simp [Resp.isBadRequest]
      | some b =>
        cases hp : form.lookup "password" with
        | none => simp [Resp.isBadRequest]
        | some c =>
          cases hc : form.lookup "confirm_password" with
          | none => simp [Resp.isBadRequest]
          | some d => rcases h with h | h | h | h <;> simp_all

/-- Witness for C10: a concrete form holding only a username, so that login
misses its password field and register misses its email field. -/
theorem form_missing_field_aborts_witness :
    (login [("username", "a")] emptyStore none).1.isBadRequest = true ∧
      (register [("username", "a")] emptyStore).2 = emptyStore := by
  have h := form_missing_field_aborts emptyStore emptyStore none [("username", "a")]
  exact ⟨(h.1 (Or.inr rfl)).1, (h.2 (Or.inr (Or.inl rfl))).2.1⟩

/-- C6: a registration whose password differs from its confirmation fails
with "Passwords do not match" and leaves the store unchanged, whatever the
username and email checks would say; the username-exists check runs only
when the passwords match, and the email-exists check only after the
username check has passed. -/
theorem register_validation_order (st : Store) (un em pw cpw : String) :
    (pw ≠ cpw →
      register [("username", un), ("email", em), ("password", pw),
          ("confirm_password", cpw)] st =
        (.renderRegister (some "Passwords do not match"), st)) ∧
    (pw = cpw → (findUserByName st un).isSome = true →
      register [("username", un), ("email", em), ("password", pw),
          ("confirm_password", cpw)] st =
        (.renderRegister (some "Username already exists"), st)) ∧
    (pw = cpw → (findUserByName st un).isSome = false →
      (findUserByEmail st em).isSome = true →
      register [("username", un), ("email", em), ("password", pw),
          ("confirm_password", cpw)] st =
        (.renderRegister (some "Email already exists"), st)) := by
  refine ⟨?_, ?_, ?_⟩
  · intro hne
    rw [register_eq, if_pos hne]
  · intro he hs
    rw [register_eq, if_neg (not_not_intro he), if_pos hs]
  · intro he h1 h2
    rw [register_eq, if_neg (not_not_intro he), if_neg (by simp [h1]), if_pos h2]

/-- Witness for C6: a mismatched confirmation on the empty store, and a
duplicate username on a one-user store. -/
theorem register_validation_order_witness :
    register [("username", "alice"), ("email", "a@x.com"), ("password", "pw123"),
        ("confirm_password", "pw124")] emptyStore =
      (.renderRegister (some "Passwords do not match"), emptyStore) ∧
    register [("username", "alice"), ("email", "other@x.com"), ("password", "pw123"),
        ("confirm_password", "pw123")]
        (⟨[⟨1, "alice", "a@x.com", "h"⟩], [], [], 2, 1, 1⟩ : Store) =
      (.renderRegister (some "Username already exists"),
        (⟨[⟨1, "alice", "a@x.com", "h"⟩], [], [], 2, 1, 1⟩ : Store)) :=
  ⟨(register_validation_order emptyStore "alice" "a@x.com" "pw123" "pw124").1
      (by decide),
   (register_validation_order _ "alice" "other@x.com" "pw123" "pw123").2.1 rfl rfl⟩

/-- C2: marking all notifications read for an existing user leaves that user
with zero unread notifications, keeps every other user's notifications (and
every field other than is_read) unchanged, and does not touch the users or
posts tables. -/
theorem mark_all_read_correct (st : Store) (username : String) (user : User)
    (h : findUserByName st username = some user) :
    (∀ n ∈ (api_mark_notifications_read username st).2.notifications,
        n.user_id = user.id → n.is_read = true) ∧
    List.Forall₂ (fun n n' : Notification =>
        n'.id = n.id ∧ n'.user_id = n.user_id ∧ n'.post_id = n.post_id ∧
          n'.message = n.message ∧ (n.user_id ≠ user.id → n' = n))
      st.notifications (api_mark_notifications_read username st).2.notifications ∧
    (api_mark_notifications_read username st).2.users = st.users ∧
    (api_mark_notifications_read username st).2.posts = st.posts := by
  have hE : (api_mark_notifications_read username st).2 =
      { st with notifications := st.notifications.map (markNotifRead user.id) } := by
    rw [mark_read_eq username st user h]
  rw [hE]
  refine ⟨?_, ?_, rfl, rfl⟩
  · intro n hn hu
    simp only [List.mem_map] at hn
    obtain ⟨m, hm, rfl⟩ := hn
    exact markNotifRead_read user.id m hu
  · exact forall₂_map_self _ _ st.notifications (fun m hm => by
      obtain ⟨h1, h2, h3, h4⟩ := markNotifRead_fields user.id m
      exact ⟨h1, h2, h3, h4, fun hne => markNotifRead_frame user.id m hne⟩)

/-- Witness for C2: a two-user store where bob has one unread notification;
the users and posts tables survive the mark-all-read for bob. -/
theorem mark_all_read_correct_witness :
    findUserByName
        (⟨[⟨1, "alice", "a@x", "h1"⟩, ⟨2, "bob", "b@x", "h2"⟩], [⟨1, "T", "C", 1⟩],
          [⟨1, 2, 1, "m1", false⟩, ⟨2, 1, 1, "m2", false⟩], 3, 2, 3⟩ : Store) "bob" =
      some ⟨2, "bob", "b@x", "h2"⟩ ∧
    (api_mark_notifications_read "bob"
        (⟨[⟨1, "alice", "a@x", "h1"⟩, ⟨2, "bob", "b@x", "h2"⟩], [⟨1, "T", "C", 1⟩],
          [⟨1, 2, 1, "m1", false⟩, ⟨2, 1, 1, "m2", false⟩], 3, 2, 3⟩ : Store)).2.users =
      [⟨1, "alice", "a@x", "h1"⟩, ⟨2, "bob", "b@x", "h2"⟩] ∧
    (api_mark_notifications_read "bob"
        (⟨[⟨1, "alice", "a@x", "h1"⟩, ⟨2, "bob", "b@x", "h2"⟩], [⟨1, "T", "C", 1⟩],
          [⟨1, 2, 1, "m1", false⟩, ⟨2, 1, 1, "m2", false⟩], 3, 2, 3⟩ : Store)).2.posts =
      [⟨1, "T", "C", 1⟩] := by
  refine ⟨rfl, ?_, ?_⟩
  · exact (mark_all_read_correct
      (⟨[⟨1, "alice", "a@x", "h1"⟩, ⟨2, "bob", "b@x", "h2"⟩], [⟨1, "T", "C", 1⟩],
        [⟨1, 2, 1, "m1", false⟩, ⟨2, 1, 1, "m2", false⟩], 3, 2, 3⟩ : Store)
      "bob" ⟨2, "bob", "b@x", "h2"⟩ rfl).2.2.1
  · exact (mark_all_read_correct
      (⟨[⟨1, "alice", "a@x", "h1"⟩, ⟨2, "bob", "b@x", "h2"⟩], [⟨1, "T", "C", 1⟩],
        [⟨1, 2, 1, "m1", false⟩, ⟨2, 1, 1, "m2", false⟩], 3, 2, 3⟩ : Store)
      "bob" ⟨2, "bob", "b@x", "h2"⟩ rfl).2.2.2

/-- C3: mark-all-read is idempotent: for an existing username, invoking it
twice yields the same store as invoking it once, and the second invocation
still returns the success message. -/
theorem mark_all_read_idempotent (st : Store) (username : String) (user : User)
    (h : findUserByName st username = some user) :
    api_mark_notifications_read username (api_mark_notifications_read username st).2 =
      (.jsonMessage "Notifications marked as read",
        (api_mark_notifications_read username st).2) := by
  have hE : (api_mark_notifications_read username st).2 =
      { st with notifications := st.notifications.map (markNotifRead user.id) } := by
    rw [mark_read_eq username st user h]
  have h2 : findUserByName
      ({ st with notifications := st.notifications.map (markNotifRead user.id) } : Store)
      username = some user := h
  rw [hE, mark_read_eq username _ user h2]
  simp [markNotifRead_idem]

/-- C4: with globally unique usernames, a login establishes a session if and
only if a user with the submitted username exists and the password verifies
against that user's hash; on success the session holds exactly that user's
id, and on failure (unknown username or wrong password alike) the store and
session are untouched and the same generic "Invalid username or password"
outcome is rendered. -/
theorem login_correct (st : Store) (sess : Option SessionData) (un pw : String)
    (huniq : st.users.Pairwise (fun a b => a.username ≠ b.username)) :
    (∀ u ∈ st.users, u.username = un →
      check_password_hash u.password_hash pw = true →
        login [("username", un), ("password", pw)] st sess =
          (.redirectDashboard, st, some ⟨u.id, u.username⟩)) ∧
    ((∀ u ∈ st.users, u.username = un →
        check_password_hash u.password_hash pw = false) →
      login [("username", un), ("password", pw)] st sess =
        (.renderLogin (some "Invalid username or password"), st, sess)) := by
  constructor
  · intro u hmem hname hcheck
    have hfind : findUserByName st un = some u := find?_username_eq huniq hmem hname
    simp [login_eq, hfind, hcheck]
  · intro hall
    rw [login_eq]
    cases hfind : findUserByName st un with
    | none => rfl
    | some u =>
      have hfind' : st.users.find? (fun x => x.username == un) = some u := hfind
      have hmem : u ∈ st.users := List.mem_of_find?_eq_some hfind'
      have hname : u.username = un := by
        have hp := List.find?_some hfind'
        simpa using hp
      have hcheckf : check_password_hash u.password_hash pw = false :=
        hall u hmem hname
      simp [hcheckf]

/-- Witness for C4: logging in as alice with her correct password on a
one-user store redirects to the dashboard and stores her id in the
session. -/
theorem login_correct_witness :
    login [("username", "alice"), ("password", "pw123")]
        (⟨[⟨1, "alice", "a@x", generate_password_hash "pw123"⟩], [], [], 2, 1, 1⟩ : Store)
        none =
      (.redirectDashboard,
        (⟨[⟨1, "alice", "a@x", generate_password_hash "pw123"⟩], [], [], 2, 1, 1⟩ : Store),
        some ⟨1, "alice"⟩) :=
  (login_correct
      (⟨[⟨1, "alice", "a@x", generate_password_hash "pw123"⟩], [], [], 2, 1, 1⟩ : Store)
      none "alice" "pw123" (by simp)).1
    ⟨1, "alice", "a@x", generate_password_hash "pw123"⟩ (by simp) rfl (by decide)

/-- C8: a successful form-based post creation (valid session, success
redirect returned) adds exactly one post owned by the session's user id and
leaves the notifications and users tables completely unchanged: no fan-out
happens on this path. -/
theorem create_post_no_fanout (st st' : Store) (form : Form) (s : SessionData)
    (t c : String)
    (ht : form.lookup "title" = some t) (hc : form.lookup "content" = some c)
    (hsucc : create_post form st (some s) = (.redirectPosts, st')) :
    st'.posts = st.posts ++ [⟨st.nextPostId, t, c, s.user_id⟩] ∧
    st'.notifications = st.notifications ∧
    st'.users = st.users := by
  simp only [create_post, ht, hc] at hsucc
  by_cases he : t = "" ∨ c = ""
  · rw [if_pos he] at hsucc
    simp at hsucc
  · rw [if_neg he] at hsucc
    by_cases hf : postFitsSchema ⟨st.nextPostId, t, c, s.user_id⟩ = true
    · rw [if_pos hf] at hsucc
      have hstore : ({ st with
          posts := st.posts ++ [⟨st.nextPostId, t, c, s.user_id⟩],
          nextPostId := st.nextPostId + 1 } : Store) = st' :=
        congrArg Prod.snd hsucc
      subst hstore
      exact ⟨rfl, rfl, rfl⟩
    · rw [if_neg hf] at hsucc
      simp at hsucc

/-- Witness for C8: alice creates a post through the form path on a
one-user store; the post appears and the notification table stays empty. -/
theorem create_post_no_fanout_witness :
    (⟨[⟨1, "alice", "a@x", "h1"⟩], [⟨1, "T", "C", 1⟩], [], 2, 2, 1⟩ : Store).posts =
      (⟨[⟨1, "alice", "a@x", "h1"⟩], [], [], 2, 1, 1⟩ : Store).posts ++
        [⟨1, "T", "C", 1⟩] ∧
    (⟨[⟨1, "alice", "a@x", "h1"⟩], [⟨1, "T", "C", 1⟩], [], 2, 2, 1⟩ : Store).notifications =
      (⟨[⟨1, "alice", "a@x", "h1"⟩], [], [], 2, 1, 1⟩ : Store).notifications := by
  have h := create_post_no_fanout
    (⟨[⟨1, "alice", "a@x", "h1"⟩], [], [], 2, 1, 1⟩ : Store)
    (⟨[⟨1, "alice", "a@x", "h1"⟩], [⟨1, "T", "C", 1⟩], [], 2, 2, 1⟩ : Store)
    [("title", "T"), ("content", "C")] ⟨1, "alice"⟩ "T" "C" rfl rfl rfl
  exact ⟨h.1, h.2.1⟩

/-- Counterexample for C7: a request missing only the title and a request
missing only the content receive the identical fixed error body naming all
three required fields, so the body does not enumerate the specific missing
fields. -/
theorem api_missing_fields_counterexample :
    (api_posts_post [("content", "C"), ("username", "alice")] emptyStore).1 =
      .jsonError 400 "Title, content, and username are required" ∧
    (api_posts_post [("title", "T"), ("username", "alice")] emptyStore).1 =
      .jsonError 400 "Title, content, and username are required" ∧
    (api_posts_post [("content", "C"), ("username", "alice")] emptyStore).1 =
      (api_posts_post [("title", "T"), ("username", "alice")] emptyStore).1 :=
  ⟨rfl, rfl, rfl⟩

/-- C7 (amended): a JSON-API post creation whose title, content, or username
is missing or empty is rejected with a 400 error — the fixed message naming
all three required fields, or "No data provided" when the body is empty —
and the store is unchanged: no Post or Notification is persisted. -/
theorem api_missing_fields_rejected (data : JsonBody) (st : Store)
    (h : truthy (data.lookup "title") = false ∨
      truthy (data.lookup "content") = false ∨
      truthy (data.lookup "username") = false) :
    (api_posts_post data st).2 = st ∧
      ((api_posts_post data st).1 = .jsonError 400 "No data provided" ∨
        (api_posts_post data st).1 =
          .jsonError 400 "Title, content, and username are required") := by
  by_cases hemp : data.isEmpty = true
  · constructor
    · simp [api_posts_post, hemp]
    · exact Or.inl (by simp [api_posts_post, hemp])
  · have hcond : ¬ (truthy (data.lookup "title") = true ∧
        truthy (data.lookup "content") = true ∧
        truthy (data.lookup "username") = true) := by
      rcases h with h | h | h <;> simp [h]
    constructor
    · simp only [api_posts_post]
      rw [if_neg hemp, if_pos hcond]
    · exact Or.inr (by
        simp only [api_posts_post]
        rw [if_neg hemp, if_pos hcond])

/-- Witness for C7 (amended): a body missing title and username is rejected
with one of the two fixed 400 messages and the empty store is unchanged. -/
theorem api_missing_fields_rejected_witness :
    (api_posts_post [("content", "C")] emptyStore).2 = emptyStore ∧
      ((api_posts_post [("content", "C")] emptyStore).1 =
          .jsonError 400 "No data provided" ∨
        (api_posts_post [("content", "C")] emptyStore).1 =
          .jsonError 400 "Title, content, and username are required") :=
  api_missing_fields_rejected [("content", "C")] emptyStore (Or.inl rfl)

/-- C1: a successful JSON-API post creation with title t, content c, and an
existing author adds exactly one post (owned by that user, with title t and
content c) and exactly one notification per user other than the author,
each unread, pointing at the new post, with a message embedding the author's
username and t. -/
theorem api_create_post_fanout (st st' : Store) (data : JsonBody)
    (t c un : String) (user : User) (p : Post) (author : String)
    (ht : data.lookup "title" = some t)
    (hc : data.lookup "content" = some c)
    (hu : data.lookup "username" = some un)
    (hfind : findUserByName st un = some user)
    (hsucc : api_posts_post data st = (.jsonCreated p author, st')) :
    p = ⟨st.nextPostId, t, c, user.id⟩ ∧
    author = user.username ∧
    st'.posts = st.posts ++ [p] ∧
    st'.users = st.users ∧
    st'.notifications.length = st.notifications.length +
      (st.users.filter (fun ou => ou.id ≠ user.id)).length ∧
    st'.notifications.map Notification.user_id =
      st.notifications.map Notification.user_id ++
        (st.users.filter (fun ou => ou.id ≠ user.id)).map User.id ∧
    (∀ n ∈ st'.notifications.drop st.notifications.length,
      n.is_read = false ∧ n.post_id = p.id ∧
        n.message = "New post by " ++ user.username ++ ": " ++ t) := by
  simp only [api_posts_post, ht, hc, hu, Option.getD_some, hfind] at hsucc
  split at hsucc
  · simp at hsucc
  · split at hsucc
    · simp at hsucc
    · split at hsucc
      · split at hsucc
        · simp only [Prod.mk.injEq, Resp.jsonCreated.injEq] at hsucc
          obtain ⟨⟨hpost, hauth⟩, hstore⟩ := hsucc
          subst hpost
          subst hauth
          subst hstore
          refine ⟨rfl, rfl, rfl, rfl, ?_, ?_, ?_⟩
          · rw [List.length_append, buildNotifs_length]
          · rw [List.map_append, buildNotifs_map_user_id]
          · rw [List.drop_left]
            intro n hn
            exact buildNotifs_mem _ _ _ _ _ n hn
        · simp at hsucc
      · simp at hsucc

/-- Witness for C1: alice posts via the JSON API on a two-user store; the
post is appended and exactly one notification, addressed to bob, is
created. -/
theorem api_create_post_fanout_witness :
    (⟨[⟨1, "alice", "a@x", "h1"⟩, ⟨2, "bob", "b@x", "h2"⟩], [⟨1, "T", "C", 1⟩],
        [⟨1, 2, 1, "New post by alice: T", false⟩], 3, 2, 2⟩ : Store).posts =
      (⟨[⟨1, "alice", "a@x", "h1"⟩, ⟨2, "bob", "b@x", "h2"⟩], [], [], 3, 1, 1⟩ :
          Store).posts ++ [⟨1, "T", "C", 1⟩] ∧
    (⟨[⟨1, "alice", "a@x", "h1"⟩, ⟨2, "bob", "b@x", "h2"⟩], [⟨1, "T", "C", 1⟩],
        [⟨1, 2, 1, "New post by alice: T", false⟩], 3, 2, 2⟩ :
          Store).notifications.map Notification.user_id =
      (⟨[⟨1, "alice", "a@x", "h1"⟩, ⟨2, "bob", "b@x", "h2"⟩], [], [], 3, 1, 1⟩ :
          Store).notifications.map Notification.user_id ++
        ((⟨[⟨1, "alice", "a@x", "h1"⟩, ⟨2, "bob", "b@x", "h2"⟩], [], [], 3, 1, 1⟩ :
            Store).users.filter
          (fun ou => ou.id ≠ (⟨1, "alice", "a@x", "h1"⟩ : User).id)).map User.id := by
  have h := api_create_post_fanout
    (⟨[⟨1, "alice", "a@x", "h1"⟩, ⟨2, "bob", "b@x", "h2"⟩], [], [], 3, 1, 1⟩ : Store)
    (⟨[⟨1, "alice", "a@x", "h1"⟩, ⟨2, "bob", "b@x", "h2"⟩], [⟨1, "T", "C", 1⟩],
        [⟨1, 2, 1, "New post by alice: T", false⟩], 3, 2, 2⟩ : Store)
    [("title", "T"), ("content", "C"), ("username", "alice")]
    "T" "C" "alice" ⟨1, "alice", "a@x", "h1"⟩ ⟨1, "T", "C", 1⟩ "alice"
    rfl rfl rfl rfl rfl
  exact ⟨h.2.2.1, h.2.2.2.2.2.1⟩

/-- C9: every post of every store reachable from the fresh database through
the handlers has a title of at most 200 characters: the declared bound is an
invariant preserved by both post-persisting paths. -/
theorem reachable_title_bound (st : Store) (h : Reachable st) :
    st.posts.all (fun p => decide (p.title.length ≤ 200)) = true := by
  induction h with
  | empty => rfl
  | @step st0 st1 hr hs ih =>
    cases hs with
    | ofLogin form sess =>
      rw [login_store_frame]
      exact ih
    | ofRegister form =>
      rw [register_posts_frame]
      exact ih
    | ofCreatePost form sess =>
      rcases create_post_posts_cases form st0 sess with hE | ⟨p, hp, hE⟩
      · rw [hE]
        exact ih
      · rw [hE, List.all_append, ih]
        simpa [postFitsSchema] using hp
    | ofApiPost data =>
      rcases api_post_posts_cases data st0 with hE | ⟨p, hp, hE⟩
      · rw [hE]
        exact ih
      · rw [hE, List.all_append, ih]
        simpa [postFitsSchema] using hp
    | ofMarkRead username =>
      rw [mark_read_posts_frame]
      exact ih
    | ofMarkRead21201532 username =>
      rw [mark_read_21201532_posts_frame]
      exact ih

/-- Witness for C9: a store reached by two registrations followed by a
JSON-API post creation satisfies the title bound. -/
theorem reachable_title_bound_witness :
    ((api_posts_post [("title", "T"), ("content", "C"), ("username", "alice")]
        (register [("username", "bob"), ("email", "b@x"), ("password", "p"),
            ("confirm_password", "p")]
          (register [("username", "alice"), ("email", "a@x"), ("password", "p"),
              ("confirm_password", "p")] emptyStore).2).2).2).posts.all
      (fun p => decide (p.title.length ≤ 200)) = true :=
  reachable_title_bound _
    (Reachable.step
      (Reachable.step
        (Reachable.step Reachable.empty
          (Step.ofRegister [("username", "alice"), ("email", "a@x"), ("password", "p"),
              ("confirm_password", "p")] emptyStore))
        (Step.ofRegister [("username", "bob"), ("email", "b@x"), ("password", "p"),
            ("confirm_password", "p")]
          (register [("username", "alice"), ("email", "a@x"), ("password", "p"),
              ("confirm_password", "p")] emptyStore).2))
      (Step.ofApiPost [("title", "T"), ("content", "C"), ("username", "alice")]
        (register [("username", "bob"), ("email", "b@x"), ("password", "p"),
            ("confirm_password", "p")]
          (register [("username", "alice"), ("email", "a@x"), ("password", "p"),
              ("confirm_password", "p")] emptyStore).2).2))

/-- Witness for C3: the second mark-all-read for bob is a no-op that still
reports success on a concrete two-user store. -/
theorem mark_all_read_idempotent_witness :
    api_mark_notifications_read "bob"
        (api_mark_notifications_read "bob"
          (⟨[⟨1, "alice", "a@x", "h1"⟩, ⟨2, "bob", "b@x", "h2"⟩], [⟨1, "T", "C", 1⟩],
            [⟨1, 2, 1, "m1", false⟩, ⟨2, 1, 1, "m2", false⟩], 3, 2, 3⟩ : Store)).2 =
      (.jsonMessage "Notifications marked as read",
        (api_mark_notifications_read "bob"
          (⟨[⟨1, "alice", "a@x", "h1"⟩, ⟨2, "bob", "b@x", "h2"⟩], [⟨1, "T", "C", 1⟩],
            [⟨1, 2, 1, "m1", false⟩, ⟨2, 1, 1, "m2", false⟩], 3, 2, 3⟩ : Store)).2) :=
  mark_all_read_idempotent _ "bob" ⟨2, "bob", "b@x", "h2"⟩ rfl

end App
